import Mathlib

set_option autoImplicit false

/-!
Shallow embedding of the AARVIK-PDF-QA backend (`src/server.py`): a FastAPI
service with a Mongo collection of session records, per-session FAISS index
directories on disk, PDF ingestion (`process_pdf` / `upload_pdf`), querying
(`ask_question`) and deletion (`delete_session`).

Modelling choices, each anchored to the source:
* The Mongo collection `db.sessions` is an association list from `session_id`
  to the record fields the server reads and writes (`pdf_processed`,
  `pdf_name`); `find_one`, `update_one (upsert)` and `delete_one` act on the
  first matching entry, as Mongo does for a single-document operation.
* The filesystem is abstracted to the list of session ids whose
  `faiss_index_<sid>` directory exists; chunking, embedding and FAISS search
  are external library calls whose numeric output never feeds back into the
  server's control flow, so only the existence of the saved index is kept.
* Python exceptions are the `PyErr` type.  A raised `HTTPException` carries
  its status and detail; `FileNotFoundError` and generic exceptions are the
  other constructors.  Each handler returns `Except PyErr result × state`:
  state mutations committed before an exception was raised survive it,
  exactly as in Python.
* `str.strip`, `str.endswith` and `str(e)` are modelled by hand
  (`pyStrip`, `pyEndswith`, `PyErr.str`) so that all definitions reduce in
  the kernel; Starlette renders `str(HTTPException)` as
  `"<status>: <detail>"`.
-/

namespace AarvikPdfQA

/-- A raised Python exception as the server distinguishes them:
`fastapi.HTTPException` (status + detail), `FileNotFoundError`
(caught by name in `delete_session`), or any other exception with
its message. -/
inductive PyErr where
  | http (status : Nat) (detail : String)
  | fileNotFound
  | exc (msg : String)
deriving DecidableEq, Repr

/-- Decimal rendering of the only HTTP status codes the server ever raises,
kept as a plain pattern match so it reduces in the kernel. -/
def statusText : Nat → String
  | 400 => "400"
  | 404 => "404"
  | 500 => "500"
  | _ => "error"

/-- Python `str(e)` for the exceptions we model; Starlette's `HTTPException`
renders as `"<status>: <detail>"`. -/
def PyErr.str : PyErr → String
  | .http s d => statusText s ++ ": " ++ d
  | .fileNotFound => "FileNotFoundError"
  | .exc m => m

/-- The HTTP status FastAPI sends for a handler outcome: a raised
`HTTPException` keeps its status, any other uncaught exception becomes a
500, success is a 200. -/
def statusOf {α : Type} : Except PyErr α → Nat
  | .ok _ => 200
  | .error (.http s _) => s
  | .error _ => 500

/-- The fields of a `db.sessions` document that `server.py` reads and
writes, besides the `session_id` key: `pdf_processed` (inserted as `False`
by `create_session`, set to `True` by `process_pdf`) and `pdf_name`
(absent until `process_pdf` sets it). -/
structure SessionRec where
  pdf_processed : Bool
  pdf_name : Option String
deriving DecidableEq, Repr

/-- Server-visible durable state: the `db.sessions` collection as an
association list keyed by `session_id`, and the set (as a list) of session
ids whose `faiss_index_<sid>` directory exists on disk. -/
structure ServerState where
  sessions : List (String × SessionRec)
  indexes : List String
deriving DecidableEq, Repr

/-- Mongo `find_one` filtering on the session id: the first matching document. -/
def findOne (sid : String) : List (String × SessionRec) → Option SessionRec
  | [] => none
  | (k, r) :: rest => if k = sid then some r else findOne sid rest

/-- Mongo `update_one` with upsert, filtering on the session id and setting
pdf_processed to True and pdf_name to the filename (server.py:90-94):
rewrite the first matching document, or insert a fresh one when none
matches.  Since the documents have exactly these fields besides the key,
the update amounts to replacing the record. -/
def upsertProcessed (sid name : String) : List (String × SessionRec) → List (String × SessionRec)
  | [] => [(sid, ⟨true, some name⟩)]
  | (k, r) :: rest =>
      if k = sid then (k, ⟨true, some name⟩) :: rest
      else (k, r) :: upsertProcessed sid name rest

/-- Mongo `delete_one` filtering on the session id (server.py:162): remove
the first matching document and report the deleted count. -/
def deleteOne (sid : String) : List (String × SessionRec) → Nat × List (String × SessionRec)
  | [] => (0, [])
  | (k, r) :: rest =>
      if k = sid then (1, rest)
      else ((deleteOne sid rest).1, (k, r) :: (deleteOne sid rest).2)

/-- `os.path.exists` on the faiss_index_<sid> path (server.py:143). -/
def hasIndex (sid : String) : List String → Bool
  | [] => false
  | k :: rest => if k = sid then true else hasIndex sid rest

/-- `vector_store.save_local` on the faiss_index_<sid> path (server.py:87):
the directory exists afterwards (overwriting any previous index). -/
def saveIndex (sid : String) (idx : List String) : List String :=
  if hasIndex sid idx then idx else sid :: idx

/-- Effect of a successful `shutil.rmtree` of the faiss_index_<sid> path
(server.py:168): the directory is gone. -/
def removeIndexDir (sid : String) : List String → List String
  | [] => []
  | k :: rest =>
      if k = sid then removeIndexDir sid rest
      else k :: removeIndexDir sid rest

/-- Python `str.strip()` restricted to the truth of `not text.strip()`
(server.py:78): drop whitespace from both ends. -/
def pyStrip (s : String) : String :=
  String.mk (((s.data.dropWhile Char.isWhitespace).reverse.dropWhile Char.isWhitespace).reverse)

/-- Python `str.endswith(suffix)` (server.py:119). -/
def pyEndswith (s suffix : String) : Bool :=
  suffix.data.isSuffixOf s.data

/-- An uploaded file as `process_pdf` consumes it: its `filename` and the
per-page results of `PyPDF2`'s `page.extract_text()`, where `none` stands
for a page yielding no text (Python `None`, coerced by `or ""`; a page
extracting to the literal empty string is the same case). -/
structure UFile where
  filename : String
  pages : List (Option String)
deriving DecidableEq, Repr

/-- One page's contribution to the concatenated text:
`page.extract_text() or ""` (server.py:74). -/
def pageText (p : Option String) : String := p.getD ""

/-- The extraction loop of `process_pdf` (server.py:72-76):
`text = ""`, then `text += page.extract_text() or ""` over the pages in
order. -/
def extractText (pages : List (Option String)) : String :=
  pages.foldl (fun text p => text ++ pageText p) ""

/-- Specification 4.1 reading of the splitter input, stated from the spec's
words for comparison with `extractText`: the page texts concatenated in
page order, a page yielding no text contributing the empty string. -/
def specPageConcat : List (Option String) → String
  | [] => ""
  | p :: rest => pageText p ++ specPageConcat rest

/-- Configuration of a `RecursiveCharacterTextSplitter`: the two options
the server passes at construction. -/
structure TextSplitterCfg where
  chunk_size : Nat
  chunk_overlap : Nat
deriving DecidableEq, Repr

/-- The splitter `process_pdf` constructs (server.py:82):
`RecursiveCharacterTextSplitter(chunk_size=1000, chunk_overlap=200)`. -/
def text_splitter : TextSplitterCfg :=
  { chunk_size := 1000, chunk_overlap := 200 }

/-- Body of the `try:` block of `process_pdf` (server.py:70-96): extract
the text, raise a 400 `HTTPException` when it strips to empty, otherwise
split it with `text_splitter`, build and save the FAISS index, and upsert
the session record with `pdf_processed=True` and the filename.  The
splitting/embedding library calls are assumed not to raise (their output
does not feed back into control flow); the state records the saved index. -/
def process_pdf_try (file : UFile) (session_id : String) (st : ServerState) :
    Except PyErr Bool × ServerState :=
  let text := extractText file.pages
  if pyStrip text = "" then
    (.error (.http 400 "PDF contains no extractable text"), st)
  else
    let st1 : ServerState := { st with indexes := saveIndex session_id st.indexes }
    let st2 : ServerState :=
      { st1 with sessions := upsertProcessed session_id file.filename st1.sessions }
    (.ok true, st2)

/-- `process_pdf` (server.py:69-99): the whole body sits in a
`try: ... except Exception as e:` that re-raises EVERY exception — the
deliberately raised 400 `HTTPException` included, since `HTTPException`
subclasses `Exception` — as a
500 HTTPException whose detail prefixes "Error processing PDF: " onto the
rendering str(e) of the original exception. -/
def process_pdf (file : UFile) (session_id : String) (st : ServerState) :
    Except PyErr Bool × ServerState :=
  match process_pdf_try file session_id st with
  | (.ok v, st1) => (.ok v, st1)
  | (.error e, st1) =>
      (.error (.http 500 ("Error processing PDF: " ++ e.str)), st1)

/-- `upload_pdf` endpoint (server.py:117-129): reject a filename not ending
in `.pdf` with a 400 BEFORE looking the session up; 404 when the session is
unknown; otherwise run `process_pdf`. -/
def upload_pdf (session_id : String) (file : UFile) (st : ServerState) :
    Except PyErr String × ServerState :=
  if pyEndswith file.filename ".pdf" = false then
    (.error (.http 400 "File must be a PDF"), st)
  else
    match findOne session_id st.sessions with
    | none => (.error (.http 404 "Session not found"), st)
    | some _ =>
        match process_pdf file session_id st with
        | (.ok _, st1) =>
            (.ok ("PDF uploaded and processed for session " ++ session_id), st1)
        | (.error e, st1) => (.error e, st1)

/-- Body of the `try:` block of `ask_question` (server.py:141-155): raise a
404 `HTTPException` when the index directory is absent, otherwise load it
and run the retrieval chain.  `qa` abstracts `FAISS.load_local` plus the
`RetrievalQA` invocation: it may return an answer or raise. -/
def ask_question_try (qa : String → Except PyErr String) (session_id question : String)
    (st : ServerState) : Except PyErr String :=
  if hasIndex session_id st.indexes then qa question
  else .error (.http 404 "FAISS index not found")

/-- `ask_question` endpoint (server.py:131-158): 404 when the session is
unknown, 404 when `pdf_processed` is not set, then the `try:` block whose
`except Exception` re-raises every error — the 404 for a missing index
included — as a 500 HTTPException whose detail prefixes
"Error answering question: " onto str(e).  The handler never mutates
state. -/
def ask_question (qa : String → Except PyErr String) (session_id question : String)
    (st : ServerState) : Except PyErr String × ServerState :=
  match findOne session_id st.sessions with
  | none => (.error (.http 404 "Session not found"), st)
  | some session =>
      if session.pdf_processed = false then
        (.error (.http 404 "No PDF processed for this session"), st)
      else
        match ask_question_try qa session_id question st with
        | .ok ans => (.ok ans, st)
        | .error e =>
            (.error (.http 500 ("Error answering question: " ++ e.str)), st)

/-- `shutil.rmtree` of the faiss_index_<sid> path (server.py:168) as the
operating system may answer it: `fault = some msg` injects a non-`FileNotFoundError`
OS error (e.g. a permission error); with `fault = none` the call removes
the directory, or raises `FileNotFoundError` when it is absent. -/
def rmtree (fault : Option String) (session_id : String) (st : ServerState) :
    Except PyErr ServerState :=
  match fault with
  | some msg => .error (.exc msg)
  | none =>
      if hasIndex session_id st.indexes then
        .ok { st with indexes := removeIndexDir session_id st.indexes }
      else
        .error .fileNotFound

/-- `delete_session` endpoint (server.py:160-174): `delete_one`, 404 when
`deleted_count == 0`, then `shutil.rmtree` guarded by a
`try: ... except FileNotFoundError:` — ONLY `FileNotFoundError` is caught
(and logged); any other `rmtree` error propagates out of the handler after
the database record is already gone. -/
def delete_session (fault : Option String) (session_id : String) (st : ServerState) :
    Except PyErr String × ServerState :=
  let dres := deleteOne session_id st.sessions
  if dres.1 = 0 then
    (.error (.http 404 "Session not found"), st)
  else
    let st1 : ServerState := { st with sessions := dres.2 }
    match rmtree fault session_id st1 with
    | .ok st2 => (.ok ("Session " ++ session_id ++ " deleted"), st2)
    | .error .fileNotFound => (.ok ("Session " ++ session_id ++ " deleted"), st1)
    | .error e => (.error e, st1)

/-- `create_session` endpoint (server.py:110-115): insert a fresh document
whose session_id is a new uuid4 and whose pdf_processed field is False,
and return the id.  The generated id is a parameter of the model; its
uuid4-freshness is a hypothesis where it matters. -/
def create_session (new_id : String) (st : ServerState) : String × ServerState :=
  (new_id,
   { st with sessions := (new_id, { pdf_processed := false, pdf_name := none }) :: st.sessions })

/-- Equality of handler outcomes is decidable, so concrete runs of the
model can be checked by `decide`. -/
instance {e a : Type} [DecidableEq e] [DecidableEq a] : DecidableEq (Except e a) := fun x y =>
  match x, y with
  | .ok v, .ok w => if h : v = w then .isTrue (by rw [h]) else .isFalse (by simp [h])
  | .error v, .error w => if h : v = w then .isTrue (by rw [h]) else .isFalse (by simp [h])
  | .ok _, .error _ => .isFalse (by simp)
  | .error _, .ok _ => .isFalse (by simp)

/-! Lemmas about the store primitives. -/

theorem findOne_eq_none_iff (sid : String) (l : List (String × SessionRec)) :
    findOne sid l = none ↔ ∀ p ∈ l, p.1 ≠ sid := by
  induction l with
  | nil => simp [findOne]
  | cons hd tl ih =>
      obtain ⟨k, r⟩ := hd
      by_cases hk : k = sid
      · subst hk
        simp [findOne]
      · simp [findOne, hk, ih]

theorem hasIndex_iff_mem (k : String) (idx : List String) :
    hasIndex k idx = true ↔ k ∈ idx := by
  induction idx with
  | nil => simp [hasIndex]
  | cons hd tl ih =>
      by_cases h : hd = k
      · subst h
        simp [hasIndex]
      · simp [hasIndex, h, ih, Ne.symm h]

theorem mem_saveIndex (k sid : String) (idx : List String) :
    k ∈ saveIndex sid idx ↔ (k = sid ∨ k ∈ idx) := by
  unfold saveIndex
  by_cases h : hasIndex sid idx = true
  · rw [if_pos h]
    have hs : sid ∈ idx := (hasIndex_iff_mem _ _).1 h
    constructor
    · exact Or.inr
    · rintro (rfl | hh)
      · exact hs
      · exact hh
  · rw [if_neg h, List.mem_cons]

theorem mem_removeIndexDir (k sid : String) (idx : List String) :
    k ∈ removeIndexDir sid idx ↔ (k ≠ sid ∧ k ∈ idx) := by
  induction idx with
  | nil => simp [removeIndexDir]
  | cons hd tl ih =>
      by_cases h : hd = sid
      · simp only [removeIndexDir]
        rw [if_pos h, ih, List.mem_cons]
        constructor
        · rintro ⟨hne, hmem⟩
          exact ⟨hne, Or.inr hmem⟩
        · rintro ⟨hne, hk | hmem⟩
          · exact absurd (hk.trans h) hne
          · exact ⟨hne, hmem⟩
      · simp only [removeIndexDir]
        rw [if_neg h, List.mem_cons, ih, List.mem_cons]
        constructor
        · rintro (rfl | ⟨hne, hmem⟩)
          · exact ⟨h, Or.inl rfl⟩
          · exact ⟨hne, Or.inr hmem⟩
        · rintro ⟨hne, rfl | hmem⟩
          · exact Or.inl rfl
          · exact Or.inr ⟨hne, hmem⟩

theorem keys_upsertProcessed_of_found (sid name : String) (l : List (String × SessionRec))
    (r : SessionRec) (h : findOne sid l = some r) :
    (upsertProcessed sid name l).map Prod.fst = l.map Prod.fst := by
  induction l with
  | nil => simp [findOne] at h
  | cons hd tl ih =>
      obtain ⟨k, v⟩ := hd
      by_cases hk : k = sid
      · subst hk
        simp [upsertProcessed]
      · simp only [findOne, if_neg hk] at h
        simp [upsertProcessed, hk, ih h]

theorem mem_upsertProcessed_of_nodup (sid name : String) (l : List (String × SessionRec))
    (hnd : (l.map Prod.fst).Nodup) (p : String × SessionRec)
    (hp : p ∈ upsertProcessed sid name l) :
    (p.1 = sid ∧ p.2 = ⟨true, some name⟩) ∨ (p.1 ≠ sid ∧ p ∈ l) := by
  induction l with
  | nil =>
      simp only [upsertProcessed, List.mem_singleton] at hp
      exact Or.inl ⟨by rw [hp], by rw [hp]⟩
  | cons hd tl ih =>
      obtain ⟨k, r⟩ := hd
      rw [List.map_cons, List.nodup_cons] at hnd
      obtain ⟨hk_not, hnd_tl⟩ := hnd
      by_cases hk : k = sid
      · simp only [upsertProcessed] at hp
        rw [if_pos hk] at hp
        rcases List.mem_cons.1 hp with hph | hph
        · exact Or.inl ⟨by rw [hph, hk], by rw [hph]⟩
        · refine Or.inr ⟨?_, List.mem_cons_of_mem _ hph⟩
          intro hps
          apply hk_not
          show k ∈ List.map Prod.fst tl
          rw [hk, ← hps]
          exact List.mem_map_of_mem Prod.fst hph
      · simp only [upsertProcessed] at hp
        rw [if_neg hk] at hp
        rcases List.mem_cons.1 hp with hph | hph
        · exact Or.inr ⟨by rw [hph]; exact hk, by rw [hph]; exact List.mem_cons_self _ _⟩
        · rcases ih hnd_tl hph with h | ⟨hne, hmem⟩
          · exact Or.inl h
          · exact Or.inr ⟨hne, List.mem_cons_of_mem _ hmem⟩

theorem deleteOne_sublist (sid : String) (l : List (String × SessionRec)) :
    (deleteOne sid l).2.Sublist l := by
  induction l with
  | nil => simp [deleteOne]
  | cons hd tl ih =>
      obtain ⟨k, r⟩ := hd
      by_cases hk : k = sid
      · simp only [deleteOne, if_pos hk]
        exact List.Sublist.cons _ (List.Sublist.refl _)
      · simp only [deleteOne, if_neg hk]
        exact List.Sublist.cons₂ _ ih

theorem fst_ne_of_mem_deleteOne (sid : String) (l : List (String × SessionRec))
    (hnd : (l.map Prod.fst).Nodup) (p : String × SessionRec)
    (hp : p ∈ (deleteOne sid l).2) : p.1 ≠ sid := by
  induction l with
  | nil => simp [deleteOne] at hp
  | cons hd tl ih =>
      obtain ⟨k, r⟩ := hd
      rw [List.map_cons, List.nodup_cons] at hnd
      obtain ⟨hk_not, hnd_tl⟩ := hnd
      by_cases hk : k = sid
      · simp only [deleteOne] at hp
        rw [if_pos hk] at hp
        intro hps
        apply hk_not
        show k ∈ List.map Prod.fst tl
        rw [← hk] at hps
        rw [← hps]
        exact List.mem_map_of_mem Prod.fst hp
      · simp only [deleteOne] at hp
        rw [if_neg hk] at hp
        rcases List.mem_cons.1 hp with hph | hph
        · rw [hph]; exact hk
        · exact ih hnd_tl hph

theorem findOne_deleteOne_self (sid : String) (l : List (String × SessionRec))
    (hnd : (l.map Prod.fst).Nodup) :
    findOne sid (deleteOne sid l).2 = none :=
  (findOne_eq_none_iff _ _).2 (fun p hp => fst_ne_of_mem_deleteOne sid l hnd p hp)

theorem deleteOne_fst_eq_zero_iff (sid : String) (l : List (String × SessionRec)) :
    (deleteOne sid l).1 = 0 ↔ findOne sid l = none := by
  induction l with
  | nil => simp [deleteOne, findOne]
  | cons hd tl ih =>
      obtain ⟨k, r⟩ := hd
      by_cases hk : k = sid <;> simp [deleteOne, findOne, hk, ih]

/-! The spec's database/disk invariant and the server's step relation. -/

/-- There is at most one session record per id; maintained by the server
because ids are fresh uuid4 values. -/
def keysNodup (st : ServerState) : Prop := (st.sessions.map Prod.fst).Nodup

/-- Specification section 3 invariant: for every session record, the
session's vector index exists on disk iff the record's `pdf_processed`
flag is true. -/
def IndexFlagInv (st : ServerState) : Prop :=
  ∀ p ∈ st.sessions, (hasIndex p.1 st.indexes = true ↔ p.2.pdf_processed = true)

/-- The state invariant preserved by every endpoint. -/
def Inv (st : ServerState) : Prop := keysNodup st ∧ IndexFlagInv st

instance (st : ServerState) : Decidable (keysNodup st) :=
  List.nodupDecidable _

instance (st : ServerState) : Decidable (IndexFlagInv st) :=
  List.decidableBAll _ st.sessions

instance (st : ServerState) : Decidable (Inv st) :=
  instDecidableAnd

/-- One crash-free sequential execution step: any endpoint invocation, with
the state it produces.  For `create_session` the generated uuid4 is fresh:
it is no existing record's id and no index directory bears it. -/
inductive Step : ServerState → ServerState → Prop where
  | create (st : ServerState) (new_id : String)
      (hfresh : findOne new_id st.sessions = none)
      (hidx : hasIndex new_id st.indexes = false) :
      Step st (create_session new_id st).2
  | upload (st : ServerState) (session_id : String) (file : UFile) :
      Step st (upload_pdf session_id file st).2
  | ask (st : ServerState) (qa : String → Except PyErr String) (session_id question : String) :
      Step st (ask_question qa session_id question st).2
  | delete (st : ServerState) (fault : Option String) (session_id : String) :
      Step st (delete_session fault session_id st).2

/-! Behaviour of each endpoint on the state. -/

theorem create_session_snd (new_id : String) (st : ServerState) :
    (create_session new_id st).2 =
      { sessions := (new_id, { pdf_processed := false, pdf_name := none }) :: st.sessions,
        indexes := st.indexes } := rfl

theorem process_pdf_eq_of_empty (file : UFile) (sid : String) (st : ServerState)
    (h : pyStrip (extractText file.pages) = "") :
    process_pdf file sid st =
      (.error (.http 500 ("Error processing PDF: " ++
        PyErr.str (.http 400 "PDF contains no extractable text"))), st) := by
  unfold process_pdf process_pdf_try
  rw [if_pos h]

theorem process_pdf_eq_of_nonempty (file : UFile) (sid : String) (st : ServerState)
    (h : ¬ pyStrip (extractText file.pages) = "") :
    process_pdf file sid st =
      (.ok true,
       { sessions := upsertProcessed sid file.filename st.sessions,
         indexes := saveIndex sid st.indexes }) := by
  unfold process_pdf process_pdf_try
  rw [if_neg h]

theorem upload_pdf_cases (sid : String) (file : UFile) (st : ServerState) :
    (upload_pdf sid file st).2 = st ∨
    ((∃ r, findOne sid st.sessions = some r) ∧
      ¬ pyStrip (extractText file.pages) = "" ∧
      (upload_pdf sid file st).2 =
        { sessions := upsertProcessed sid file.filename st.sessions,
          indexes := saveIndex sid st.indexes }) := by
  unfold upload_pdf
  by_cases hext : pyEndswith file.filename ".pdf" = false
  · rw [if_pos hext]
    exact Or.inl rfl
  · rw [if_neg hext]
    cases hfind : findOne sid st.sessions with
    | none => exact Or.inl rfl
    | some r =>
        by_cases hstrip : pyStrip (extractText file.pages) = ""
        · rw [process_pdf_eq_of_empty file sid st hstrip]
          exact Or.inl rfl
        · rw [process_pdf_eq_of_nonempty file sid st hstrip]
          exact Or.inr ⟨⟨r, rfl⟩, hstrip, rfl⟩

theorem ask_question_snd (qa : String → Except PyErr String) (sid q : String)
    (st : ServerState) : (ask_question qa sid q st).2 = st := by
  unfold ask_question
  split
  · rfl
  · split
    · rfl
    · split <;> rfl

theorem delete_session_snd_cases (fault : Option String) (sid : String) (st : ServerState) :
    (delete_session fault sid st).2 = st ∨
    (delete_session fault sid st).2 =
        { sessions := (deleteOne sid st.sessions).2, indexes := st.indexes } ∨
    (delete_session fault sid st).2 =
        { sessions := (deleteOne sid st.sessions).2,
          indexes := removeIndexDir sid st.indexes } := by
  simp only [delete_session]
  by_cases hz : (deleteOne sid st.sessions).1 = 0
  · rw [if_pos hz]
    exact Or.inl rfl
  · rw [if_neg hz]
    cases fault with
    | some msg => simp [rmtree]
    | none =>
        by_cases hhas : hasIndex sid st.indexes = true
        · simp [rmtree, hhas]
        · simp [rmtree, hhas]

/-! Preservation of the invariant by each endpoint. -/

theorem Inv_create (st : ServerState) (new_id : String)
    (hfresh : findOne new_id st.sessions = none)
    (hidx : hasIndex new_id st.indexes = false) (h : Inv st) :
    Inv (create_session new_id st).2 := by
  obtain ⟨hnd, hflag⟩ := h
  rw [create_session_snd]
  constructor
  · show (((new_id, ({ pdf_processed := false, pdf_name := none } : SessionRec)) :: st.sessions).map Prod.fst).Nodup
    rw [List.map_cons, List.nodup_cons]
    refine ⟨?_, hnd⟩
    intro hmem
    rcases List.mem_map.1 hmem with ⟨p, hp, hps⟩
    exact (findOne_eq_none_iff new_id st.sessions).1 hfresh p hp hps
  · intro p hp
    rcases List.mem_cons.1 hp with hph | hph
    · have hp1 : p.1 = new_id := by rw [hph]
      have hp2 : p.2.pdf_processed = false := by rw [hph]
      constructor
      · intro hhas
        rw [hp1, hidx] at hhas
        exact (Bool.false_ne_true hhas).elim
      · intro hproc
        rw [hp2] at hproc
        exact (Bool.false_ne_true hproc).elim
    · exact hflag p hph

theorem Inv_upload (st : ServerState) (sid : String) (file : UFile) (h : Inv st) :
    Inv (upload_pdf sid file st).2 := by
  rcases upload_pdf_cases sid file st with heq | ⟨⟨r, hfind⟩, _, heq⟩
  · rw [heq]
    exact h
  · rw [heq]
    obtain ⟨hnd, hflag⟩ := h
    constructor
    · show ((upsertProcessed sid file.filename st.sessions).map Prod.fst).Nodup
      rw [keys_upsertProcessed_of_found sid file.filename st.sessions r hfind]
      exact hnd
    · intro p hp
      rcases mem_upsertProcessed_of_nodup sid file.filename st.sessions hnd p hp with
        ⟨hps, hrec⟩ | ⟨hne, hmem⟩
      · constructor
        · intro _
          rw [hrec]
        · intro _
          rw [hasIndex_iff_mem, mem_saveIndex]
          exact Or.inl hps
      · rw [hasIndex_iff_mem, mem_saveIndex]
        have hold := hflag p hmem
        rw [hasIndex_iff_mem] at hold
        constructor
        · rintro (h1 | h1)
          · exact absurd h1 hne
          · exact hold.1 h1
        · intro hproc
          exact Or.inr (hold.2 hproc)

theorem Inv_delete (st : ServerState) (fault : Option String) (sid : String) (h : Inv st) :
    Inv (delete_session fault sid st).2 := by
  obtain ⟨hnd, hflag⟩ := h
  have hsub : ∀ p ∈ (deleteOne sid st.sessions).2, p ∈ st.sessions :=
    fun p hp => (deleteOne_sublist sid st.sessions).subset hp
  have hnd2 : ((deleteOne sid st.sessions).2.map Prod.fst).Nodup :=
    hnd.sublist ((deleteOne_sublist sid st.sessions).map Prod.fst)
  rcases delete_session_snd_cases fault sid st with heq | heq | heq <;> rw [heq]
  · exact ⟨hnd, hflag⟩
  · exact ⟨hnd2, fun p hp => hflag p (hsub p hp)⟩
  · refine ⟨hnd2, ?_⟩
    intro p hp
    have hne : p.1 ≠ sid := fst_ne_of_mem_deleteOne sid st.sessions hnd p hp
    rw [hasIndex_iff_mem, mem_removeIndexDir]
    have hold := hflag p (hsub p hp)
    rw [hasIndex_iff_mem] at hold
    constructor
    · rintro ⟨_, hmem⟩
      exact hold.1 hmem
    · intro hproc
      exact ⟨hne, hold.2 hproc⟩

/-! Further characterizations of `delete_session` used by several claims. -/

theorem delete_session_fst_of_found (fault : Option String) (sid : String) (st : ServerState)
    (hz : ¬ (deleteOne sid st.sessions).1 = 0) :
    (delete_session fault sid st).1 =
      match fault with
      | some msg => .error (.exc msg)
      | none => .ok ("Session " ++ sid ++ " deleted") := by
  simp only [delete_session]
  rw [if_neg hz]
  cases fault with
  | some msg => simp [rmtree]
  | none =>
      by_cases hhas : hasIndex sid st.indexes = true
      · simp [rmtree, hhas]
      · simp [rmtree, hhas]

theorem delete_session_of_missing (fault : Option String) (sid : String) (st : ServerState)
    (hz : (deleteOne sid st.sessions).1 = 0) :
    (delete_session fault sid st).1 = .error (.http 404 "Session not found") ∧
    (delete_session fault sid st).2 = st := by
  simp only [delete_session]
  rw [if_pos hz]
  exact ⟨rfl, rfl⟩

theorem delete_session_snd_sessions (fault : Option String) (sid : String) (st : ServerState)
    (hz : ¬ (deleteOne sid st.sessions).1 = 0) :
    (delete_session fault sid st).2.sessions = (deleteOne sid st.sessions).2 := by
  simp only [delete_session]
  rw [if_neg hz]
  cases fault with
  | some msg => simp [rmtree]
  | none =>
      by_cases hhas : hasIndex sid st.indexes = true
      · simp [rmtree, hhas]
      · simp [rmtree, hhas]

theorem foldl_pageText_append (pages : List (Option String)) (init : String) :
    pages.foldl (fun text p => text ++ pageText p) init = init ++ specPageConcat pages := by
  induction pages generalizing init with
  | nil => simp [specPageConcat]
  | cons hd tl ih => simp [List.foldl_cons, ih, specPageConcat, String.append_assoc]

/-! The claims. -/

/-- C1 (evidence of the code bug): uploading a PDF whose pages extract to
whitespace only, into an existing session, surfaces HTTP 500 — not the 400
client error the spec promises.  The 400 HTTPException deliberately raised
at server.py:80 is caught by the blanket `except Exception` of the same
function (server.py:97-99) and re-raised as a 500 wrapping its rendering. -/
theorem C1_whitespace_pdf_upload_returns_500 :
    (upload_pdf "sid-1" { filename := "scan.pdf", pages := [some "  \n", none] }
        { sessions := [("sid-1", { pdf_processed := false, pdf_name := none })],
          indexes := [] }).1 =
      .error (.http 500 ("Error processing PDF: " ++
        PyErr.str (.http 400 "PDF contains no extractable text"))) ∧
    statusOf (upload_pdf "sid-1" { filename := "scan.pdf", pages := [some "  \n", none] }
        { sessions := [("sid-1", { pdf_processed := false, pdf_name := none })],
          indexes := [] }).1 = 500 :=
  ⟨by decide, by decide⟩

/-- C2 (evidence of the code bug): asking a question in a session that
exists and is marked processed while its index directory is absent
surfaces HTTP 500, not the 404 the spec promises: the 404 HTTPException
raised at server.py:145 sits inside the `try:` block whose
`except Exception` (server.py:156-158) re-raises it as a 500.  The
retrieval oracle is irrelevant (it is never reached) and is taken here to
answer successfully. -/
theorem C2_missing_index_returns_500 :
    (ask_question (fun _ => .ok "an answer") "sid-2" "what?"
        { sessions := [("sid-2", { pdf_processed := true, pdf_name := some "doc.pdf" })],
          indexes := [] }).1 =
      .error (.http 500 ("Error answering question: " ++
        PyErr.str (.http 404 "FAISS index not found"))) ∧
    statusOf (ask_question (fun _ => .ok "an answer") "sid-2" "what?"
        { sessions := [("sid-2", { pdf_processed := true, pdf_name := some "doc.pdf" })],
          indexes := [] }).1 = 500 :=
  ⟨by decide, by decide⟩

/-- C3: for every session record, the on-disk vector index exists iff the
record's pdf_processed flag is true (together with uniqueness of session
ids), and every endpoint invocation — create, ingest (upload), query
(ask), delete — preserves this invariant in crash-free sequential
execution. -/
theorem C3_invariant_preserved_by_every_step (st st1 : ServerState)
    (hinv : Inv st) (hstep : Step st st1) : Inv st1 := by
  cases hstep with
  | create new_id hfresh hidx => exact Inv_create st new_id hfresh hidx hinv
  | upload sid file => exact Inv_upload st sid file hinv
  | ask qa sid q =>
      rw [ask_question_snd]
      exact hinv
  | delete fault sid => exact Inv_delete st fault sid hinv

/-- Witness for C3: a concrete upload step into an existing, empty session,
starting from a state satisfying the invariant. -/
theorem C3_invariant_preserved_witness :
    Inv ((upload_pdf "s3" { filename := "d.pdf", pages := [some "hello world"] }
      { sessions := [("s3", { pdf_processed := false, pdf_name := none })],
        indexes := [] }).2) :=
  C3_invariant_preserved_by_every_step _ _ (by decide)
    (Step.upload
      { sessions := [("s3", { pdf_processed := false, pdf_name := none })], indexes := [] }
      "s3" { filename := "d.pdf", pages := [some "hello world"] })

/-- C4: an unknown session id fails with the 404 "Session not found", while
a session that exists but was never ingested fails with the distinct 404
"No PDF processed for this session"; the two error payloads differ. -/
theorem C4_unknown_vs_unprocessed_distinct (st : ServerState)
    (qa : String → Except PyErr String) (q sid1 sid2 : String) (rec : SessionRec)
    (h1 : findOne sid1 st.sessions = none)
    (h2 : findOne sid2 st.sessions = some rec)
    (h3 : rec.pdf_processed = false) :
    (ask_question qa sid1 q st).1 = .error (.http 404 "Session not found") ∧
    (ask_question qa sid2 q st).1 = .error (.http 404 "No PDF processed for this session") ∧
    PyErr.http 404 "Session not found" ≠ PyErr.http 404 "No PDF processed for this session" := by
  refine ⟨?_, ?_, by decide⟩
  · simp only [ask_question, h1]
  · simp only [ask_question, h2]
    rw [if_pos h3]

/-- Witness for C4: one state holding a single never-ingested session,
queried under its own id and under an unknown one. -/
theorem C4_unknown_vs_unprocessed_witness :
    (ask_question (fun _ => .ok "a") "ghost" "q"
        { sessions := [("fresh", { pdf_processed := false, pdf_name := none })],
          indexes := [] }).1 = .error (.http 404 "Session not found") ∧
    (ask_question (fun _ => .ok "a") "fresh" "q"
        { sessions := [("fresh", { pdf_processed := false, pdf_name := none })],
          indexes := [] }).1 = .error (.http 404 "No PDF processed for this session") ∧
    PyErr.http 404 "Session not found" ≠ PyErr.http 404 "No PDF processed for this session" :=
  C4_unknown_vs_unprocessed_distinct
    { sessions := [("fresh", { pdf_processed := false, pdf_name := none })], indexes := [] }
    (fun _ => .ok "a") "q" "ghost" "fresh" { pdf_processed := false, pdf_name := none }
    (by decide) (by decide) rfl

/-- C5 counterexample: with the record and the index directory both
present, an injected non-FileNotFoundError failure of `shutil.rmtree` (a
permission error, say) escapes `delete_session`: the call does NOT
succeed, a 500 surfaces — contradicting the claim that any deletion error
other than absence is only logged. -/
theorem C5_counterexample_rmtree_error_escapes :
    (delete_session (some "PermissionError") "sid-5"
        { sessions := [("sid-5", { pdf_processed := true, pdf_name := some "a.pdf" })],
          indexes := ["sid-5"] }).1 = .error (.exc "PermissionError") ∧
    statusOf (delete_session (some "PermissionError") "sid-5"
        { sessions := [("sid-5", { pdf_processed := true, pdf_name := some "a.pdf" })],
          indexes := ["sid-5"] }).1 = 500 :=
  ⟨by decide, by decide⟩

/-- C5 amended: after a successful database-record removal, only ABSENCE of
the index directory (FileNotFoundError) is tolerated — with no other OS
fault the deletion succeeds whether or not the directory exists — but any
other rmtree error propagates to the caller as a 500, although the
database record is already removed. -/
theorem C5_amended_only_absence_tolerated (st : ServerState) (sid msg : String)
    (rec : SessionRec) (hnd : keysNodup st)
    (hfind : findOne sid st.sessions = some rec) :
    (delete_session none sid st).1 = .ok ("Session " ++ sid ++ " deleted") ∧
    (delete_session (some msg) sid st).1 = .error (.exc msg) ∧
    statusOf (delete_session (some msg) sid st).1 = 500 ∧
    findOne sid (delete_session (some msg) sid st).2.sessions = none := by
  have hz : ¬ (deleteOne sid st.sessions).1 = 0 := by
    rw [deleteOne_fst_eq_zero_iff, hfind]
    simp
  refine ⟨?_, ?_, ?_, ?_⟩
  · rw [delete_session_fst_of_found none sid st hz]
  · rw [delete_session_fst_of_found (some msg) sid st hz]
  · rw [delete_session_fst_of_found (some msg) sid st hz]
    rfl
  · rw [delete_session_snd_sessions (some msg) sid st hz]
    exact findOne_deleteOne_self sid st.sessions hnd

/-- Witness for C5 (amended): a one-session state with its index present
and an injected permission error. -/
theorem C5_amended_only_absence_tolerated_witness :
    keysNodup
      { sessions := [("s5", { pdf_processed := true, pdf_name := some "a.pdf" })],
        indexes := ["s5"] } ∧
    ((delete_session none "s5"
        { sessions := [("s5", { pdf_processed := true, pdf_name := some "a.pdf" })],
          indexes := ["s5"] }).1 = .ok ("Session " ++ "s5" ++ " deleted") ∧
     (delete_session (some "PermissionError: faiss_index_s5") "s5"
        { sessions := [("s5", { pdf_processed := true, pdf_name := some "a.pdf" })],
          indexes := ["s5"] }).1 = .error (.exc "PermissionError: faiss_index_s5") ∧
     statusOf (delete_session (some "PermissionError: faiss_index_s5") "s5"
        { sessions := [("s5", { pdf_processed := true, pdf_name := some "a.pdf" })],
          indexes := ["s5"] }).1 = 500 ∧
     findOne "s5" (delete_session (some "PermissionError: faiss_index_s5") "s5"
        { sessions := [("s5", { pdf_processed := true, pdf_name := some "a.pdf" })],
          indexes := ["s5"] }).2.sessions = none) :=
  ⟨by decide,
   C5_amended_only_absence_tolerated
     { sessions := [("s5", { pdf_processed := true, pdf_name := some "a.pdf" })],
       indexes := ["s5"] }
     "s5" "PermissionError: faiss_index_s5" { pdf_processed := true, pdf_name := some "a.pdf" }
     (by decide) (by decide)⟩

/-- C6: an upload whose PDF strips to no text is atomic: the whole server
state — every record's pdf_processed and pdf_name, and every index
directory — is exactly as before, and the call does not succeed. -/
theorem C6_empty_text_upload_is_atomic (st : ServerState) (sid : String) (file : UFile)
    (hempty : pyStrip (extractText file.pages) = "") :
    (upload_pdf sid file st).2 = st ∧
    ∀ m : String, (upload_pdf sid file st).1 ≠ .ok m := by
  unfold upload_pdf
  by_cases hext : pyEndswith file.filename ".pdf" = false
  · rw [if_pos hext]
    exact ⟨rfl, fun m h => Except.noConfusion h⟩
  · rw [if_neg hext]
    cases hfind : findOne sid st.sessions with
    | none => exact ⟨rfl, fun m h => Except.noConfusion h⟩
    | some r =>
        rw [process_pdf_eq_of_empty file sid st hempty]
        exact ⟨rfl, fun m h => Except.noConfusion h⟩

/-- Witness for C6: a processed session whose re-upload carries a
whitespace-only PDF; nothing changes. -/
theorem C6_empty_text_upload_is_atomic_witness :
    pyStrip (extractText [some " ", none]) = "" ∧
    ((upload_pdf "s6" { filename := "w.pdf", pages := [some " ", none] }
        { sessions := [("s6", { pdf_processed := true, pdf_name := some "old.pdf" })],
          indexes := ["s6"] }).2 =
      { sessions := [("s6", { pdf_processed := true, pdf_name := some "old.pdf" })],
        indexes := ["s6"] } ∧
     ∀ m : String, (upload_pdf "s6" { filename := "w.pdf", pages := [some " ", none] }
        { sessions := [("s6", { pdf_processed := true, pdf_name := some "old.pdf" })],
          indexes := ["s6"] }).1 ≠ .ok m) :=
  ⟨by decide,
   C6_empty_text_upload_is_atomic
     { sessions := [("s6", { pdf_processed := true, pdf_name := some "old.pdf" })],
       indexes := ["s6"] }
     "s6" { filename := "w.pdf", pages := [some " ", none] } (by decide)⟩

/-- C7: deleting the same session id twice: the first call succeeds (HTTP
200) and removes the database record, and the second call — under any
rmtree outcome — fails with the 404 "Session not found".  Session ids are
unique (fresh uuid4 values), hence the `keysNodup` hypothesis. -/
theorem C7_delete_twice_second_404 (st : ServerState) (sid : String) (rec : SessionRec)
    (fault2 : Option String) (hnd : keysNodup st)
    (hfind : findOne sid st.sessions = some rec) :
    statusOf (delete_session none sid st).1 = 200 ∧
    findOne sid (delete_session none sid st).2.sessions = none ∧
    (delete_session fault2 sid (delete_session none sid st).2).1 =
      .error (.http 404 "Session not found") := by
  have hz : ¬ (deleteOne sid st.sessions).1 = 0 := by
    rw [deleteOne_fst_eq_zero_iff, hfind]
    simp
  have hgone : findOne sid (delete_session none sid st).2.sessions = none := by
    rw [delete_session_snd_sessions none sid st hz]
    exact findOne_deleteOne_self sid st.sessions hnd
  refine ⟨?_, hgone, ?_⟩
  · rw [delete_session_fst_of_found none sid st hz]
    rfl
  · have hz2 : (deleteOne sid (delete_session none sid st).2.sessions).1 = 0 := by
      rw [deleteOne_fst_eq_zero_iff]
      exact hgone
    exact (delete_session_of_missing fault2 sid (delete_session none sid st).2 hz2).1

/-- Witness for C7: a one-session state with its index on disk, deleted
twice with a fault-free filesystem. -/
theorem C7_delete_twice_second_404_witness :
    keysNodup
      { sessions := [("s7", { pdf_processed := true, pdf_name := some "a.pdf" })],
        indexes := ["s7"] } ∧
    (statusOf (delete_session none "s7"
        { sessions := [("s7", { pdf_processed := true, pdf_name := some "a.pdf" })],
          indexes := ["s7"] }).1 = 200 ∧
     findOne "s7" (delete_session none "s7"
        { sessions := [("s7", { pdf_processed := true, pdf_name := some "a.pdf" })],
          indexes := ["s7"] }).2.sessions = none ∧
     (delete_session none "s7" (delete_session none "s7"
        { sessions := [("s7", { pdf_processed := true, pdf_name := some "a.pdf" })],
          indexes := ["s7"] }).2).1 = .error (.http 404 "Session not found")) :=
  ⟨by decide,
   C7_delete_twice_second_404
     { sessions := [("s7", { pdf_processed := true, pdf_name := some "a.pdf" })],
       indexes := ["s7"] }
     "s7" { pdf_processed := true, pdf_name := some "a.pdf" } none (by decide) (by decide)⟩

/-- C8: the text handed to the splitter — `extractText`, the accumulation
loop of server.py:72-76 — equals the concatenation of each page's
extracted text in page order, a page yielding no text contributing the
empty string (`specPageConcat`, transcribed from the spec's words). -/
theorem C8_extraction_is_ordered_page_concat (pages : List (Option String)) :
    extractText pages = specPageConcat pages := by
  unfold extractText
  rw [foldl_pageText_append]
  simp

/-- C9: the splitter built by ingestion is configured with chunk length
1000 and chunk overlap 200 (server.py:82). -/
theorem C9_splitter_configuration :
    text_splitter.chunk_size = 1000 ∧ text_splitter.chunk_overlap = 200 :=
  ⟨rfl, rfl⟩

/-- C10: a filename not ending in ".pdf" is rejected with the 400
before the session is looked up: for EVERY state — in particular one in
which the session id is unknown — the result is the 400 "File must be a
PDF" and the state is untouched. -/
theorem C10_extension_check_precedes_lookup (st : ServerState) (sid : String) (file : UFile)
    (hext : pyEndswith file.filename ".pdf" = false) :
    (upload_pdf sid file st).1 = .error (.http 400 "File must be a PDF") ∧
    (upload_pdf sid file st).2 = st := by
  unfold upload_pdf
  rw [if_pos hext]
  exact ⟨rfl, rfl⟩

/-- Witness for C10: a .txt upload aimed at a session id that does not
exist still yields the 400, not the 404. -/
theorem C10_extension_check_precedes_lookup_witness :
    pyEndswith "notes.txt" ".pdf" = false ∧
    findOne "no-such-session" ([] : List (String × SessionRec)) = none ∧
    ((upload_pdf "no-such-session" { filename := "notes.txt", pages := [some "hi"] }
        { sessions := [], indexes := [] }).1 = .error (.http 400 "File must be a PDF") ∧
     (upload_pdf "no-such-session" { filename := "notes.txt", pages := [some "hi"] }
        { sessions := [], indexes := [] }).2 = { sessions := [], indexes := [] }) :=
  ⟨by decide, by decide,
   C10_extension_check_precedes_lookup { sessions := [], indexes := [] }
     "no-such-session" { filename := "notes.txt", pages := [some "hi"] } (by decide)⟩

end AarvikPdfQA
